import Mathlib

/-!
Verification of the boss-hunt automation engine of a screen-reading game bot
(`boss_bot.py` together with its helpers in `shared.py`).

The engine is shallowly embedded: OCR text is a `List Char`, perception
results (brightness checks, frame-diff percentages, OCR reads) are supplied
by an environment record, wall-clock time is idealized as exact rational
sample times, and every handler is a pure function from the engine state and
the environment to the next state plus the list of click targets it issues
(`click_at` calls, pre-jitter coordinates; drag gestures are not clicks and
are not recorded).
-/

namespace BossBot

/-! ### Character and string primitives (Python `str` operations, ASCII model) -/

/-- Python regex `\d` restricted to ASCII digits. -/
def isDigitCh (c : Char) : Bool := '0' ≤ c && c ≤ '9'

/-- Python regex `\s` restricted to ASCII whitespace. -/
def isSpaceCh (c : Char) : Bool :=
  c == ' ' || c == Char.ofNat 9 || c == Char.ofNat 10 || c == Char.ofNat 13 ||
  c == Char.ofNat 11 || c == Char.ofNat 12

/-- Python `str.lower`, modelled for ASCII letters plus the Turkish letter
seen in the monster-list blacklist. -/
def lowerChar (c : Char) : Char :=
  if 'A' ≤ c ∧ c ≤ 'Z' then Char.ofNat (c.toNat + 32)
  else if c = 'Ü' then 'ü'
  else c

/-- Lowercase a text (Python `text.lower()`). -/
def lowerL (l : List Char) : List Char := l.map lowerChar

/-- Python `str.strip()`: drop leading and trailing whitespace. -/
def stripL (l : List Char) : List Char :=
  ((l.dropWhile isSpaceCh).reverse.dropWhile isSpaceCh).reverse

/-- Bool test that `n` is a prefix of `hay` (character lists). -/
def isPrefixL : List Char → List Char → Bool
  | [], _ => true
  | _ :: _, [] => false
  | a :: as, b :: bs => a == b && isPrefixL as bs

/-- Python substring test `n in hay` (the empty needle is in everything). -/
def containsSub (n : List Char) : List Char → Bool
  | [] => isPrefixL n []
  | c :: cs => isPrefixL n (c :: cs) || containsSub n cs

/-- Python `str.split()` with no argument: whitespace-separated words. -/
def splitWsAux (cur : List Char) : List Char → List (List Char)
  | [] => if cur.isEmpty then [] else [cur.reverse]
  | c :: cs =>
    if isSpaceCh c then
      if cur.isEmpty then splitWsAux [] cs else cur.reverse :: splitWsAux [] cs
    else splitWsAux (c :: cur) cs

/-- Split a text into whitespace-separated words. -/
def splitWs (l : List Char) : List (List Char) := splitWsAux [] l

/-! ### Channel OCR parsing

`boss_bot.py` runs `re.search(r'ch\s*(\d+)', ch_text, re.IGNORECASE)` on the
OCR of the channel button area and then strips a trailing `1` (the arrow
glyph misread) from the captured digit run when the run is longer than one
digit. The regex is embedded with Python leftmost-match semantics. -/

/-- Attempt the pattern `ch\s*(\d+)` (case-insensitive) at the head of the
text; return the captured maximal digit run. -/
def chMatchHere : List Char → Option (List Char)
  | c :: h :: rest =>
    if (c == 'c' || c == 'C') && (h == 'h' || h == 'H') then
      let ds := (rest.dropWhile isSpaceCh).takeWhile isDigitCh
      if ds.isEmpty then none else some ds
    else none
  | _ => none

/-- `re.search`: try the pattern at each position, leftmost match wins. -/
def chSearch : List Char → Option (List Char)
  | [] => none
  | c :: cs =>
    match chMatchHere (c :: cs) with
    | some ds => some ds
    | none => chSearch cs

/-- The arrow-misread normalization from `_handle_switch_ch1` /
`_ensure_ch1`: if the digit run has more than one digit and ends in `1`,
drop the trailing `1`. -/
def stripArrowOne (ds : List Char) : List Char :=
  if 1 < ds.length ∧ ds.getLast? = some '1' then ds.dropLast else ds

/-- Channel detection as performed in `_handle_switch_ch1` (lines 235-244). -/
def switchChDetect (t : List Char) : Option (List Char) :=
  (chSearch t).map stripArrowOne

/-- Channel detection as performed in `_ensure_ch1` (lines 678-686). -/
def ensureChDetect (t : List Char) : Option (List Char) :=
  (chSearch t).map stripArrowOne

/-! ### Timer OCR parsing

`_handle_check_status` runs `re.search(r"(\d{1,2}:\d{2}:\d{2})", row_text)`
on each boss row to pick up the respawn countdown. -/

/-- Match `:\d\d:\d\d` at the head of the text. -/
def colonPairHere : List Char → Option (List Char)
  | c1 :: m1 :: m2 :: c2 :: s1 :: s2 :: _ =>
    if c1 == ':' && isDigitCh m1 && isDigitCh m2 &&
       c2 == ':' && isDigitCh s1 && isDigitCh s2 then
      some [c1, m1, m2, c2, s1, s2]
    else none
  | _ => none

/-- Match `\d{1,2}:\d{2}:\d{2}` at the head of the text (greedy `{1,2}`
with backtracking, as in Python). -/
def timerHere : List Char → Option (List Char)
  | [] => none
  | a :: rest =>
    if isDigitCh a then
      match rest with
      | [] => none
      | b :: rest2 =>
        if isDigitCh b then
          match colonPairHere rest2 with
          | some t => some (a :: b :: t)
          | none => (colonPairHere rest).map (fun t => a :: t)
        else (colonPairHere rest).map (fun t => a :: t)
    else none

/-- `re.search` for the timer pattern: leftmost match. -/
def findTimer : List Char → Option (List Char)
  | [] => none
  | c :: cs =>
    match timerHere (c :: cs) with
    | some t => some t
    | none => findTimer cs

/-! ### Data model of the engine -/

/-- The fixed list of major bosses (`MVP_BOSSES`). -/
def MVP_BOSSES : List String :=
  ["Phreeoni", "Mistress", "Kraken", "Eddga",
   "Maya", "Orc Hero", "Pharaoh", "Orc Lord"]

/-- The fixed list of minor bosses (`MINI_BOSSES`). -/
def MINI_BOSSES : List String :=
  ["Dragon Fly", "Eclipse", "Mastering", "Ghostring",
   "Toad", "King Dramoh", "Deviling", "Angeling"]

/-- The states of the hunt state machine (`BossState` enum). -/
inductive BossState where
  | IDLE
  | SWITCH_CH1
  | OPEN_PANEL
  | CHECK_STATUS
  | CLICK_GO
  | START_ATTACK
  | FIGHTING
  | DEAD
  | RESURRECT
  | RE_NAVIGATE
deriving DecidableEq, Repr

/-- The per-boss last-seen countdown-timer map (`self.boss_timers`),
modelled as a function so that an absent entry is `none`. -/
def Timers : Type := String → Option (List Char)

/-- The mutable fields of `BossFarmingBot` that the state machine owns. -/
structure BotState where
  state : BossState
  running : Bool
  targetBoss : Option String
  targetIsMvp : Bool
  deaths : Nat
  bossesKilled : Nat
  currentChannel : String
  selectedMvps : List String
  selectedMinis : List String
  checkingMvpTab : Bool
  foundRowIdx : Nat
  bossTimers : Timers

/-- Calibrated absolute positions (`self._boss_pos`): screen coordinates of
every clicked control plus the scalar row height. -/
structure Positions where
  channelButton : ℤ × ℤ
  ch1Button : ℤ × ℤ
  mvpPanelButton : ℤ × ℤ
  mvpTab : ℤ × ℤ
  miniTab : ℤ × ℤ
  firstBossRow : ℤ × ℤ
  goButton : ℤ × ℤ
  panelClose : ℤ × ℤ
  autoAttackToggle : ℤ × ℤ
  monsterListFirst : ℤ × ℤ
  resurrectButton : ℤ × ℤ
  rowHeight : ℤ

/-- The perception environment of one tick: everything the handlers would
read from the screen (OCR text, brightness checks, frame diffs, death
detection), plus the elapsed fighting time, supplied as an oracle. -/
structure TickEnv where
  loading : Bool
  chText : List Char
  modalOpens : Nat → Bool
  panelOpens : Nat → Bool
  rowText : Nat → Nat → List Char
  panelStillOpen : Bool
  postLoadChText : List Char
  postLoadModalOpens : Nat → Bool
  minimapOpen : Bool
  minimapStillOpen : Bool
  monsterRow : Nat → List Char
  deathDetected : Bool
  fightElapsed : ℚ
  stillDeadAfterResurrect : Bool

/-! ### Bounded retries

Several handlers retry a click up to 3 times, re-checking a brightness
condition after each attempt (`for attempt in range(3): click; if check:
break`). -/

/-- Index of the first attempt whose re-check succeeds, among the first `n`. -/
def firstTrueBefore (f : Nat → Bool) (n : Nat) : Option Nat :=
  (List.range n).find? f

/-- Number of clicks issued by the retry loop. -/
def retryCount (f : Nat → Bool) (n : Nat) : Nat :=
  match firstTrueBefore f n with
  | some i => i + 1
  | none => n

/-- Whether the retry loop succeeded. -/
def retrySucceeded (f : Nat → Bool) (n : Nat) : Bool :=
  (firstTrueBefore f n).isSome

/-! ### Handlers -/

/-- `_handle_idle`: after the idle interval, move on to the channel check.
(The interruptible sleep is timing; `stopBot` models the stop entry point.) -/
def handleIdle (s : BotState) : BotState × List (ℤ × ℤ) :=
  ({s with state := BossState.SWITCH_CH1}, [])

/-- `_handle_switch_ch1` (lines 219-286). -/
def handleSwitchCh1 (pos : Positions) (env : TickEnv) (s : BotState) :
    BotState × List (ℤ × ℤ) :=
  if switchChDetect env.chText = some ['1'] then
    ({s with currentChannel := "CH 1", state := BossState.OPEN_PANEL}, [])
  else
    let cks := List.replicate (retryCount env.modalOpens 3) pos.channelButton
    if retrySucceeded env.modalOpens 3 then
      ({s with currentChannel := "CH 1", state := BossState.OPEN_PANEL},
       cks ++ [pos.ch1Button])
    else
      ({s with state := BossState.OPEN_PANEL}, cks)

/-- `_handle_open_panel` (lines 288-332). -/
def handleOpenPanel (pos : Positions) (env : TickEnv) (s : BotState) :
    BotState × List (ℤ × ℤ) :=
  let cks := List.replicate (retryCount env.panelOpens 3) pos.mvpPanelButton
  if !retrySucceeded env.panelOpens 3 then
    ({s with state := BossState.IDLE}, cks)
  else if !s.selectedMvps.isEmpty then
    ({s with checkingMvpTab := true, state := BossState.CHECK_STATUS},
     cks ++ [pos.mvpTab])
  else if !s.selectedMinis.isEmpty then
    ({s with checkingMvpTab := false, state := BossState.CHECK_STATUS},
     cks ++ [pos.miniTab])
  else
    ({s with state := BossState.IDLE}, cks ++ [pos.panelClose])

/-- Write a parsed timer into the map (`self.boss_timers[boss] = ...`). -/
def timerSet (m : Timers) (b : String) (tm : List Char) : Timers :=
  fun x => if x = b then some tm else m x

/-- The inner `for boss in targets` loop of `_handle_check_status` over one
row text: a row naming a selected boss together with an appeared/battle
marker is a find; otherwise a parsed countdown updates that boss entry. -/
def scanBosses (targets : List String) (row : List Char) (m : Timers) :
    Timers × Option String :=
  match targets with
  | [] => (m, none)
  | boss :: rest =>
    let rl := lowerL row
    if containsSub (lowerL boss.toList) rl then
      if containsSub "appeared".toList rl ||
         containsSub "inthebattle".toList rl ||
         containsSub "battle".toList rl then
        (m, some boss)
      else
        match findTimer row with
        | some tm => scanBosses rest row (timerSet m boss tm)
        | none => scanBosses rest row m
    else scanBosses rest row m

/-- Scan of the visible rows of one page, in order. -/
def scanRowsList (targets : List String) (rowOf : Nat → List Char) :
    List Nat → Timers → Timers × Option (String × Nat)
  | [], m => (m, none)
  | i :: rest, m =>
    match scanBosses targets (rowOf i) m with
    | (m1, some b) => (m1, some (b, i))
    | (m1, none) => scanRowsList targets rowOf rest m1

/-- One page of the panel: 4 visible rows. -/
def scanPage (targets : List String) (rowOf : Nat → List Char) (m : Timers) :
    Timers × Option (String × Nat) :=
  scanRowsList targets rowOf [0, 1, 2, 3] m

/-- State update on a successful find in `_handle_check_status`
(lines 393-397). -/
def foundUpdate (s : BotState) (m : Timers) (br : String × Nat) : BotState :=
  {s with bossTimers := m,
          targetBoss := some br.1,
          targetIsMvp := MVP_BOSSES.contains br.1,
          foundRowIdx := br.2,
          state := BossState.CLICK_GO}

/-- Second page of the `_handle_check_status` scan, given the timer map
`m0` accumulated over page 1: on a find set the target and go to
`CLICK_GO`; with nothing found either switch to the mini tab (staying in
`CHECK_STATUS`) or close the panel and return to `IDLE`. -/
def checkStatusPage2 (pos : Positions) (env : TickEnv) (s : BotState)
    (targets : List String) (m0 : Timers) : BotState × List (ℤ × ℤ) :=
  match scanPage targets (env.rowText 1) m0 with
  | (m1, some br) => (foundUpdate s m1 br, [])
  | (m1, none) =>
    if s.checkingMvpTab && !s.selectedMinis.isEmpty then
      ({s with bossTimers := m1, checkingMvpTab := false}, [pos.miniTab])
    else
      ({s with bossTimers := m1, state := BossState.IDLE}, [pos.panelClose])

/-- Core of `_handle_check_status` (lines 334-415) over the already selected
target list: scan page 1, scroll, scan page 2. -/
def checkStatusCore (pos : Positions) (env : TickEnv) (s : BotState)
    (targets : List String) : BotState × List (ℤ × ℤ) :=
  match scanPage targets (env.rowText 0) s.bossTimers with
  | (m0, some br) => (foundUpdate s m0 br, [])
  | (m0, none) => checkStatusPage2 pos env s targets m0

/-- `_handle_check_status`. -/
def handleCheckStatus (pos : Positions) (env : TickEnv) (s : BotState) :
    BotState × List (ℤ × ℤ) :=
  checkStatusCore pos env s
    (if s.checkingMvpTab then s.selectedMvps else s.selectedMinis)

/-! ### The Go click (`_handle_click_go`, lines 417-479) -/

/-- Python 3 `round` on an exact rational: nearest integer, ties to even. -/
def pyRound (q : ℚ) : ℤ :=
  if q - (Int.floor q : ℚ) < 1 / 2 then Int.floor q
  else if 1 / 2 < q - (Int.floor q : ℚ) then Int.floor q + 1
  else if Int.floor q % 2 = 0 then Int.floor q else Int.floor q + 1

/-- Go-button click coordinate (lines 422-432): the calibrated Go control,
offset vertically by (found row − calibrated row) × row height, where the
calibrated row index is recovered by rounding `(go_y - first_y) / row_h`. -/
def clickGoTarget (pos : Positions) (foundRow : Nat) : ℤ × ℤ :=
  let goX := pos.goButton.1
  let goY := pos.goButton.2
  let rowH := pos.rowHeight
  let firstY := pos.firstBossRow.2
  let calibRow : ℤ :=
    if 0 < rowH then pyRound (((goY - firstY : ℤ) : ℚ) / ((rowH : ℤ) : ℚ))
    else 0
  (goX, goY + ((foundRow : ℤ) - calibRow) * rowH)

/-- The minimap toggle position used by `_wait_for_arrival` and
`_close_minimap_if_open`: 50 px below the channel button. -/
def minimapButton (pos : Positions) : ℤ × ℤ :=
  (pos.channelButton.1, pos.channelButton.2 + 50)

/-- Clicks issued by `_wait_for_arrival`: open the minimap if it is not
already open, later close it, and click once more if it is still open. -/
def arrivalClicks (pos : Positions) (env : TickEnv) : List (ℤ × ℤ) :=
  (if env.minimapOpen then [] else [minimapButton pos]) ++
  [minimapButton pos] ++
  (if env.minimapStillOpen then [minimapButton pos] else [])

/-- `_ensure_ch1` (lines 665-723): the inline post-loading channel
re-check. Changes only the channel label, never the machine state. -/
def ensureCh1 (pos : Positions) (env : TickEnv) (s : BotState) :
    BotState × List (ℤ × ℤ) :=
  if ensureChDetect env.postLoadChText = some ['1'] then
    ({s with currentChannel := "CH 1"}, [])
  else
    let cks := List.replicate (retryCount env.postLoadModalOpens 3)
      pos.channelButton
    if retrySucceeded env.postLoadModalOpens 3 then
      ({s with currentChannel := "CH 1"}, cks ++ [pos.ch1Button])
    else (s, cks)

/-- `_handle_click_go`: click Go on the found row, close the panel if it
stayed open, wait out the loading screen, re-ensure channel 1, wait for
arrival, then start attacking. -/
def handleClickGo (pos : Positions) (env : TickEnv) (s : BotState) :
    BotState × List (ℤ × ℤ) :=
  let e := ensureCh1 pos env s
  ({e.1 with state := BossState.START_ATTACK},
   clickGoTarget pos s.foundRowIdx ::
     ((if env.panelStillOpen then [pos.panelClose] else []) ++
      e.2 ++ arrivalClicks pos env))

/-! ### Monster-list selection (`_select_boss_from_monster_list`,
lines 912-978) -/

/-- The fixed blacklist (`SKIP_ENTRIES`): never click these entries. -/
def skipEntries : List (List Char) :=
  ["all monsters".toList, "all monster".toList, "tüm canavarlar".toList]

/-- Match condition of one dropdown row against the target: the lowercased
row contains the lowercased boss name, or it contains every word of it. -/
def entryMatches (bossLower : List Char) (words : List (List Char))
    (rl : List Char) : Bool :=
  containsSub bossLower rl ||
  (!words.isEmpty && words.all (fun w => containsSub w rl))

/-- Whether a dropdown row would be selected: non-empty after lowercasing
and stripping, not blacklisted, and matching the target. -/
def entryClickable (bossLower : List Char) (words : List (List Char))
    (row : List Char) : Bool :=
  let rl := stripL (lowerL row)
  !rl.isEmpty &&
  !(skipEntries.any (fun sk => containsSub sk rl)) &&
  entryMatches bossLower words rl

/-- Scan the up-to-6 dropdown rows in order for the first clickable one. -/
def monsterScan (name : String) (rows : Nat → List Char) : Option Nat :=
  (List.range 6).find?
    (fun i => entryClickable (lowerL name.toList)
      (splitWs (lowerL name.toList)) (rows i))

/-- Clicks issued by the monster-list selection: the matched row, or none. -/
def monsterClicks (pos : Positions) (name : String)
    (rows : Nat → List Char) : List (ℤ × ℤ) :=
  match monsterScan name rows with
  | some i =>
    [(pos.monsterListFirst.1, pos.monsterListFirst.2 + (i : ℤ) * 38 + 19)]
  | none => []

/-- Clicks of `_close_minimap_if_open` (lines 868-910). -/
def closeMinimapClicks (pos : Positions) (env : TickEnv) : List (ℤ × ℤ) :=
  if env.minimapOpen then
    minimapButton pos ::
      (if env.minimapStillOpen then [minimapButton pos] else [])
  else []

/-- `_handle_start_attack` (lines 586-603): close the minimap if open,
toggle auto-attack, select the boss in the dropdown, start fighting. -/
def handleStartAttack (pos : Positions) (env : TickEnv) (s : BotState) :
    BotState × List (ℤ × ℤ) :=
  ({s with state := BossState.FIGHTING},
   closeMinimapClicks pos env ++ [pos.autoAttackToggle] ++
     monsterClicks pos (s.targetBoss.getD "") env.monsterRow)

/-- `_handle_fighting` (lines 605-628): a detected death increments the
death counter and moves to `DEAD`; past the 90 s timeout the target is
cleared and the machine returns to `IDLE`; otherwise keep polling. -/
def handleFighting (env : TickEnv) (s : BotState) : BotState × List (ℤ × ℤ) :=
  if env.deathDetected then
    ({s with deaths := s.deaths + 1, state := BossState.DEAD}, [])
  else if 90 < env.fightElapsed then
    ({s with targetBoss := none, state := BossState.IDLE}, [])
  else (s, [])

/-- `_handle_dead` (lines 630-634). -/
def handleDead (s : BotState) : BotState × List (ℤ × ℤ) :=
  ({s with state := BossState.RESURRECT}, [])

/-- `_handle_resurrect` (lines 636-652): click resurrect, once more if the
death signal persists. -/
def handleResurrect (pos : Positions) (env : TickEnv) (s : BotState) :
    BotState × List (ℤ × ℤ) :=
  ({s with state := BossState.RE_NAVIGATE},
   pos.resurrectButton ::
     (if env.stillDeadAfterResurrect then [pos.resurrectButton] else []))

/-- `_handle_re_navigate` (lines 654-661). -/
def handleReNavigate (s : BotState) : BotState × List (ℤ × ℤ) :=
  if s.targetBoss.isNone then ({s with state := BossState.IDLE}, [])
  else ({s with state := BossState.OPEN_PANEL}, [])

/-! ### The main loop -/

/-- Dispatch to the handler of the current state (the `elif` chain of
`_main_loop`, lines 179-198). -/
def dispatch (pos : Positions) (env : TickEnv) (s : BotState) :
    BotState × List (ℤ × ℤ) :=
  match s.state with
  | BossState.IDLE => handleIdle s
  | BossState.SWITCH_CH1 => handleSwitchCh1 pos env s
  | BossState.OPEN_PANEL => handleOpenPanel pos env s
  | BossState.CHECK_STATUS => handleCheckStatus pos env s
  | BossState.CLICK_GO => handleClickGo pos env s
  | BossState.START_ATTACK => handleStartAttack pos env s
  | BossState.FIGHTING => handleFighting env s
  | BossState.DEAD => handleDead s
  | BossState.RESURRECT => handleResurrect pos env s
  | BossState.RE_NAVIGATE => handleReNavigate s

/-- One tick of `_main_loop` (lines 156-198), given resolved positions: the
loading-screen interrupt is checked before any handler runs, and when it
fires the machine waits out the load and is forced to `SWITCH_CH1` without
running the current handler. -/
def tick (pos : Positions) (env : TickEnv) (s : BotState) :
    BotState × List (ℤ × ℤ) :=
  if env.loading then ({s with state := BossState.SWITCH_CH1}, [])
  else dispatch pos env s

/-- The `stop()` entry point (lines 138-142). -/
def stopBot (s : BotState) : BotState :=
  {s with running := false, state := BossState.IDLE, targetBoss := none}

/-- The record persisted by `save_boss_config` (shared.py lines 125-128),
as assembled by `update_selection`. -/
structure SavedBossConfig where
  selected_mvps : List String
  selected_minis : List String
  timers : Timers

/-- The `update_selection` entry point (lines 144-152): replace both
selection lists and persist them together with the in-memory timer map. -/
def update_selection (s : BotState) (mvps minis : List String) :
    BotState × SavedBossConfig :=
  ({s with selectedMvps := mvps, selectedMinis := minis},
   { selected_mvps := mvps, selected_minis := minis,
     timers := s.bossTimers })

/-! ### The loading-screen wait (`_wait_for_loading_screen`, lines 744-759)

The loop sleeps 1 s, re-samples the darkness detector, and returns on the
first bright sample; the whole wait is capped at 30 samples (`MAX_WAIT` of
30 s with 1 s polls). `waitPolls` counts the 1-second sleeps performed for
a given stream of detector samples. -/

/-- The bounded polling loop, with `fuel` remaining 1-second polls and `i`
the index of the next detector sample. -/
def waitPollsAux (samples : Nat → Bool) : Nat → Nat → Nat
  | _, 0 => 0
  | i, fuel + 1 => if samples i then 1 + waitPollsAux samples (i + 1) fuel else 1

/-- Number of 1-second polls performed by `_wait_for_loading_screen`. -/
def waitPolls (samples : Nat → Bool) : Nat :=
  waitPollsAux samples 0 30

/-! ### Arrival detection (`_wait_for_arrival`, lines 481-567)

The minimap is captured every `poll` seconds; the percentage of changed
pixels between consecutive captures is the diff sample. A sample above the
threshold resets the stability clock to its own time; once the current
sample time is at least `dur` past the clock, arrival is declared. The
whole loop is capped at `maxW` seconds. Idealization: sample `k` is taken
exactly at time `k * poll`, matching the claim's premise that diffs are
sampled at the polling interval. -/

/-- Process the remaining diff samples. `t` is the time of the sample at
the head, `ss` the current stability clock, `k` its 1-based index; the
result is the index of the sample at which arrival is declared. -/
def arrivalAux (thr dur poll maxW : ℚ) :
    List ℚ → ℚ → ℚ → Nat → Option Nat
  | [], _, _, _ => none
  | d :: ds, t, ss, k =>
    if maxW ≤ t then none
    else if thr < d then arrivalAux thr dur poll maxW ds (t + poll) t (k + 1)
    else if dur ≤ t - ss then some k
    else arrivalAux thr dur poll maxW ds (t + poll) ss (k + 1)

/-- Index (1-based) of the diff sample at which arrival is declared, for a
run that starts with the stability clock at the initial snapshot (time 0)
and takes diff sample `k` at time `k * poll`. -/
def arrivalIdx (thr dur poll maxW : ℚ) (diffs : List ℚ) : Option Nat :=
  arrivalAux thr dur poll maxW diffs poll 0 1

/-! ### Helper lemmas -/

theorem chSearch_leftmost (t : List Char) :
    ∀ ds, chSearch t = some ds →
      ∃ i, chMatchHere (t.drop i) = some ds ∧
        ∀ j, j < i → chMatchHere (t.drop j) = none := by
  induction t with
  | nil => intro ds h; simp [chSearch] at h
  | cons c cs ih =>
    intro ds h
    unfold chSearch at h
    rcases hm : chMatchHere (c :: cs) with _ | d
    · rw [hm] at h
      obtain ⟨i, hi, hj⟩ := ih ds h
      refine ⟨i + 1, by simpa using hi, ?_⟩
      intro j hj'
      cases j with
      | zero => simpa using hm
      | succ j' => simpa using hj j' (by omega)
    · rw [hm] at h
      cases h
      exact ⟨0, by simpa using hm, fun j hj => absurd hj (Nat.not_lt_zero j)⟩

theorem chSearch_eq_none (t : List Char)
    (h : ∀ i, chMatchHere (t.drop i) = none) : chSearch t = none := by
  induction t with
  | nil => rfl
  | cons c cs ih =>
    unfold chSearch
    have h0 := h 0
    simp only [List.drop_zero] at h0
    rw [h0]
    exact ih fun i => by simpa using h (i + 1)

end BossBot

namespace BossBot

/-- Claim C1: channel-number normalization. For any OCR text, the channel
detected by the `SWITCH_CH1` handler is the digit run captured by the
leftmost `ch\s*(\d+)` match, with a trailing `1` dropped exactly when the
run is longer than one digit; raw run 21 gives 2, 101 gives 10, 1 stays 1;
with no marker-plus-digits occurrence nothing is detected; and the
post-loading re-check applies the identical rule. -/
theorem channel_normalization_spec :
    (∀ t ds, chSearch t = some ds → switchChDetect t = some (stripArrowOne ds))
    ∧ (∀ ds : List Char, 1 < ds.length → ds.getLast? = some '1' →
        stripArrowOne ds = ds.dropLast)
    ∧ (∀ ds : List Char, ds.length ≤ 1 ∨ ds.getLast? ≠ some '1' →
        stripArrowOne ds = ds)
    ∧ (∀ t ds, chSearch t = some ds →
        ∃ i, chMatchHere (t.drop i) = some ds ∧
          ∀ j, j < i → chMatchHere (t.drop j) = none)
    ∧ (∀ t, (∀ i, chMatchHere (t.drop i) = none) → switchChDetect t = none)
    ∧ switchChDetect "CH 21".toList = some "2".toList
    ∧ switchChDetect "ch101".toList = some "10".toList
    ∧ switchChDetect "CH 1".toList = some "1".toList
    ∧ switchChDetect = ensureChDetect := by
  refine ⟨?_, ?_, ?_, ?_, ?_, by decide, by decide, by decide, rfl⟩
  · intro t ds h
    simp [switchChDetect, h]
  · intro ds h1 h2
    simp [stripArrowOne, h1, h2]
  · intro ds h
    unfold stripArrowOne
    rw [if_neg]
    rintro ⟨hl, he⟩
    rcases h with h | h
    · omega
    · exact h he
  · exact fun t => chSearch_leftmost t
  · intro t h
    simp [switchChDetect, chSearch_eq_none t h]

/-- Witness for C1 at the concrete misread text CH 21. -/
theorem channel_normalization_witness :
    chSearch "CH 21".toList = some ['2', '1'] ∧
    switchChDetect "CH 21".toList = some (stripArrowOne ['2', '1']) :=
  ⟨by decide, channel_normalization_spec.1 _ _ (by decide)⟩

/-! ### Concrete fixtures for witnesses and counterexamples -/

/-- An empty timer map. -/
def emptyTimers : Timers := fun _ => none

/-- A concrete calibration. -/
def cpos : Positions :=
  { channelButton := (1100, 50), ch1Button := (600, 400),
    mvpPanelButton := (300, 30), mvpTab := (350, 120), miniTab := (450, 120),
    firstBossRow := (260, 180), goButton := (700, 200),
    panelClose := (900, 100), autoAttackToggle := (650, 700),
    monsterListFirst := (660, 740), resurrectButton := (640, 450),
    rowHeight := 101 }

/-- A concrete running engine state with one selected major boss. -/
def baseState : BotState :=
  { state := BossState.IDLE, running := true, targetBoss := none,
    targetIsMvp := true, deaths := 0, bossesKilled := 0,
    currentChannel := "?", selectedMvps := ["Eddga"], selectedMinis := [],
    checkingMvpTab := true, foundRowIdx := 0, bossTimers := emptyTimers }

/-- A concrete quiet environment: no loading screen, panel opens on the
first try, all OCR reads empty, nothing detected. -/
def quietEnv : TickEnv :=
  { loading := false, chText := [], modalOpens := fun _ => false,
    panelOpens := fun _ => true, rowText := fun _ _ => [],
    panelStillOpen := false, postLoadChText := [],
    postLoadModalOpens := fun _ => false, minimapOpen := true,
    minimapStillOpen := false, monsterRow := fun _ => [],
    deathDetected := false, fightElapsed := 0,
    stillDeadAfterResurrect := false }

/-! ### Claim C10: the selection-update entry point -/

/-- Claim C10: `update_selection` replaces both in-memory selection lists,
persists a record holding the new selection together with the current
in-memory timer map, and leaves every other engine field unchanged. -/
theorem update_selection_spec :
    ∀ s mvps minis,
      (update_selection s mvps minis).1.selectedMvps = mvps ∧
      (update_selection s mvps minis).1.selectedMinis = minis ∧
      (update_selection s mvps minis).2 =
        { selected_mvps := mvps, selected_minis := minis,
          timers := s.bossTimers } ∧
      (update_selection s mvps minis).1.state = s.state ∧
      (update_selection s mvps minis).1.running = s.running ∧
      (update_selection s mvps minis).1.targetBoss = s.targetBoss ∧
      (update_selection s mvps minis).1.targetIsMvp = s.targetIsMvp ∧
      (update_selection s mvps minis).1.deaths = s.deaths ∧
      (update_selection s mvps minis).1.bossesKilled = s.bossesKilled ∧
      (update_selection s mvps minis).1.currentChannel = s.currentChannel ∧
      (update_selection s mvps minis).1.checkingMvpTab = s.checkingMvpTab ∧
      (update_selection s mvps minis).1.foundRowIdx = s.foundRowIdx ∧
      (update_selection s mvps minis).1.bossTimers = s.bossTimers :=
  fun _ _ _ =>
    ⟨rfl, rfl, rfl, rfl, rfl, rfl, rfl, rfl, rfl, rfl, rfl, rfl, rfl⟩

/-! ### Claim C3: the global loading interrupt -/

theorem waitPollsAux_le (samples : Nat → Bool) :
    ∀ fuel i, waitPollsAux samples i fuel ≤ fuel := by
  intro fuel
  induction fuel with
  | zero => intro i; simp [waitPollsAux]
  | succ n ih =>
    intro i
    unfold waitPollsAux
    split
    · have := ih (i + 1); omega
    · omega

theorem waitPollsAux_first_false (samples : Nat → Bool) :
    ∀ k fuel i, k < fuel → samples (i + k) = false →
      (∀ j, j < k → samples (i + j) = true) →
      waitPollsAux samples i fuel = k + 1 := by
  intro k
  induction k with
  | zero =>
    intro fuel i hk hf _
    obtain ⟨m, rfl⟩ : ∃ m, fuel = m + 1 := ⟨fuel - 1, by omega⟩
    unfold waitPollsAux
    simp only [Nat.add_zero] at hf
    rw [hf]
    simp
  | succ k ih =>
    intro fuel i hk hf hj
    obtain ⟨m, rfl⟩ : ∃ m, fuel = m + 1 := ⟨fuel - 1, by omega⟩
    unfold waitPollsAux
    have h0 : samples i = true := by simpa using hj 0 (by omega)
    rw [h0]
    simp only [if_true]
    have := ih m (i + 1) (by omega)
      (by simpa [Nat.add_assoc, Nat.add_comm 1 k] using hf)
      (fun j hjk => by
        have := hj (j + 1) (by omega)
        simpa [Nat.add_assoc, Nat.add_comm 1 j] using this)
    omega

/-- Claim C3: at the top of every tick, a detected loading screen forces
the next state to `SWITCH_CH1` without running the current handler or
issuing any click, for every current state and every engine state; the
loading wait polls at most 30 times and returns on the first bright
sample. -/
theorem loading_interrupt_spec :
    (∀ pos env s, env.loading = true →
      tick pos env s = ({s with state := BossState.SWITCH_CH1}, []))
    ∧ (∀ samples, waitPolls samples ≤ 30)
    ∧ (∀ samples i, i < 30 → samples i = false →
        (∀ j, j < i → samples j = true) → waitPolls samples = i + 1) := by
  refine ⟨?_, ?_, ?_⟩
  · intro pos env s h
    simp [tick, h]
  · intro samples
    exact waitPollsAux_le samples 30 0
  · intro samples i hi hf hj
    exact waitPollsAux_first_false samples i 30 0 hi (by simpa using hf)
      (by simpa using hj)

/-- A tick environment showing a loading screen. -/
def loadEnv : TickEnv := {quietEnv with loading := true}

/-- Witness for C3: a loading tick from `IDLE` moves to `SWITCH_CH1`. -/
theorem loading_interrupt_witness :
    loadEnv.loading = true ∧
    tick cpos loadEnv baseState =
      ({baseState with state := BossState.SWITCH_CH1}, []) :=
  ⟨rfl, loading_interrupt_spec.1 cpos loadEnv baseState rfl⟩

/-! ### Claim C6: Go-button position arithmetic -/

theorem pyRound_dist (q : ℚ) : |q - (pyRound q : ℚ)| ≤ 1 / 2 := by
  have h0 : (Int.floor q : ℚ) ≤ q := Int.floor_le q
  have h1 : q < Int.floor q + 1 := Int.lt_floor_add_one q
  unfold pyRound
  split_ifs with ha hb hc
  · rw [abs_le]
    constructor <;> linarith
  · rw [abs_le]
    push_cast
    constructor <;> linarith
  · rw [abs_le]
    constructor <;> linarith
  · rw [abs_le]
    push_cast
    constructor <;> linarith

/-- Claim C6: in `CLICK_GO` the first click issued by the tick targets the
calibrated Go control offset by (found row − calibrated row) × row height,
with the calibrated row recovered by rounding `(go_y − first_y) / row_h`;
the x-coordinate is the calibrated one unchanged. `pyRound` rounds to a
nearest integer. -/
theorem go_button_offset_spec :
    (∀ pos env s, 0 < pos.rowHeight → s.state = BossState.CLICK_GO →
      env.loading = false →
      (tick pos env s).2.head? = some
        (pos.goButton.1,
         pos.goButton.2 +
           ((s.foundRowIdx : ℤ) -
             pyRound (((pos.goButton.2 - pos.firstBossRow.2 : ℤ) : ℚ) /
               ((pos.rowHeight : ℤ) : ℚ))) * pos.rowHeight))
    ∧ (∀ q : ℚ, |q - (pyRound q : ℚ)| ≤ 1 / 2) := by
  constructor
  · intro pos env s hrow hst hl
    simp only [tick, hl, Bool.false_eq_true, if_false, dispatch, hst,
      handleClickGo]
    simp [clickGoTarget, hrow]
  · exact pyRound_dist

/-- A concrete `CLICK_GO` state: target found on row 3 (index 2). -/
def goState : BotState :=
  {baseState with state := BossState.CLICK_GO, targetBoss := some "Eddga",
                  foundRowIdx := 2}

/-- Witness for C6 at the concrete calibration `cpos`. -/
theorem go_button_offset_witness :
    0 < cpos.rowHeight ∧
    (tick cpos quietEnv goState).2.head? = some
      (cpos.goButton.1,
       cpos.goButton.2 +
         ((goState.foundRowIdx : ℤ) -
           pyRound (((cpos.goButton.2 - cpos.firstBossRow.2 : ℤ) : ℚ) /
             ((cpos.rowHeight : ℤ) : ℚ))) * cpos.rowHeight) :=
  ⟨by decide, go_button_offset_spec.1 cpos quietEnv goState (by decide) rfl rfl⟩

/-! ### Claim C5: ensure-channel idempotence (corrected) -/

/-- Counterexample to C5 as stated: when the OCR already reads CH 1, the
`SWITCH_CH1` handler performs zero clicks but does NOT leave the engine
state unchanged — it advances the machine state to `OPEN_PANEL`, and the
inline re-check rewrites the channel label. -/
def ch1Env : TickEnv :=
  {quietEnv with chText := "CH 1".toList, postLoadChText := "CH 1".toList}

/-- A concrete state sitting in `SWITCH_CH1`. -/
def switchState : BotState := {baseState with state := BossState.SWITCH_CH1}

theorem ensure_channel_idempotence_cex :
    (handleSwitchCh1 cpos ch1Env switchState).2 = [] ∧
    (handleSwitchCh1 cpos ch1Env switchState).1.state ≠ switchState.state ∧
    (ensureCh1 cpos ch1Env switchState).1.currentChannel ≠
      switchState.currentChannel := by
  refine ⟨rfl, ?_, ?_⟩ <;> decide

/-- Claim C5 as amended: when the detected channel is already 1, both the
`SWITCH_CH1` handler and the inline post-loading re-check perform zero
click actions; the inline re-check changes nothing but the channel label,
while the `SWITCH_CH1` handler additionally advances the machine state to
`OPEN_PANEL`. -/
theorem ensure_channel_idempotence_amended :
    (∀ pos env s, switchChDetect env.chText = some ['1'] →
      handleSwitchCh1 pos env s =
        ({s with currentChannel := "CH 1", state := BossState.OPEN_PANEL},
         []))
    ∧ (∀ pos env s, ensureChDetect env.postLoadChText = some ['1'] →
      ensureCh1 pos env s = ({s with currentChannel := "CH 1"}, [])) := by
  constructor <;> intro pos env s h <;> simp [handleSwitchCh1, ensureCh1, h]

/-- Witness for the amended C5 at the concrete OCR text CH 1. -/
theorem ensure_channel_idempotence_witness :
    switchChDetect ch1Env.chText = some ['1'] ∧
    handleSwitchCh1 cpos ch1Env switchState =
      ({switchState with currentChannel := "CH 1",
                         state := BossState.OPEN_PANEL}, []) :=
  ⟨by decide, ensure_channel_idempotence_amended.1 cpos ch1Env switchState
    (by decide)⟩

/-! ### Claim C7: arrival detection (corrected) -/

theorem arrivalAux_all_unstable (thr dur poll maxW : ℚ) :
    ∀ (ds : List ℚ) (t ss : ℚ) (k : Nat), (∀ d ∈ ds, thr < d) →
      arrivalAux thr dur poll maxW ds t ss k = none := by
  intro ds
  induction ds with
  | nil => intro t ss k _; rfl
  | cons d ds ih =>
    intro t ss k h
    unfold arrivalAux
    split
    · rfl
    · rw [if_pos (h d (List.mem_cons_self d ds))]
      exact ih (t + poll) t (k + 1) fun x hx => h x (List.mem_cons_of_mem d hx)

theorem arrivalAux_some_bound (thr dur poll maxW : ℚ) :
    ∀ (ds : List ℚ) (t ss : ℚ) (k j : Nat),
      arrivalAux thr dur poll maxW ds t ss k = some j →
      k ≤ j ∧ t + ((j - k : ℕ) : ℚ) * poll < maxW := by
  intro ds
  induction ds with
  | nil => intro t ss k j h; exact absurd h (by simp [arrivalAux])
  | cons d ds ih =>
    intro t ss k j h
    unfold arrivalAux at h
    split at h
    · exact absurd h (by simp)
    · rename_i ht
      split at h
      · obtain ⟨hk, hb⟩ := ih (t + poll) t (k + 1) j h
        have hcast : ((j - k : ℕ) : ℚ) = ((j - (k + 1) : ℕ) : ℚ) + 1 := by
          have hs : j - k = (j - (k + 1)) + 1 := by omega
          rw [hs]
          push_cast
          ring
        refine ⟨by omega, ?_⟩
        rw [hcast]
        nlinarith [hb]
      · split at h
        · obtain rfl : k = j := by injection h
          refine ⟨le_refl k, ?_⟩
          simp only [Nat.sub_self, Nat.cast_zero, zero_mul, add_zero]
          linarith [not_le.mp ht]
        · obtain ⟨hk, hb⟩ := ih (t + poll) ss (k + 1) j h
          have hcast : ((j - k : ℕ) : ℚ) = ((j - (k + 1) : ℕ) : ℚ) + 1 := by
            have hs : j - k = (j - (k + 1)) + 1 := by omega
            rw [hs]
            push_cast
            ring
          refine ⟨by omega, ?_⟩
          rw [hcast]
          nlinarith [hb]

/-- Counterexample to C7 as stated: with the code's constants (threshold
2%, stable duration 5 s, poll interval 1.5 s) and the given diff sequence,
arrival is declared at the 6th diff sample — the 4th consecutive
below-threshold sample — not at the 3rd consecutive stable sample (the 5th
diff). -/
theorem arrival_third_sample_cex :
    arrivalIdx 2 5 (3 / 2) 120 [10, 8, 1, 1 / 2, 3 / 10, 1 / 5] = some 6 ∧
    arrivalIdx 2 5 (3 / 2) 120 [10, 8, 1, 1 / 2, 3 / 10, 1 / 5] ≠ some 5 := by
  constructor <;> norm_num [arrivalIdx, arrivalAux]

/-- Claim C7 as amended: with the code's stable duration of 5 s and poll
interval of 1.5 s, arrival on the diff sequence [10, 8, 1, 0.5, 0.3, 0.2]
is declared exactly at the 4th consecutive below-threshold sample (a
stable duration of 4.5 s — three poll intervals — would give the claimed
3rd); an above-threshold sample resets the stability clock to its own
time; if every sample is above the threshold arrival is never declared;
and an arrival can only happen at a sample time below the 120 s cap. -/
theorem arrival_detection_amended :
    arrivalIdx 2 5 (3 / 2) 120 [10, 8, 1, 1 / 2, 3 / 10, 1 / 5] = some 6
    ∧ arrivalIdx 2 (9 / 2) (3 / 2) 120 [10, 8, 1, 1 / 2, 3 / 10, 1 / 5] =
        some 5
    ∧ (∀ thr dur poll maxW : ℚ, ∀ (ds : List ℚ) (t ss : ℚ) (k : Nat),
        (∀ d ∈ ds, thr < d) →
        arrivalAux thr dur poll maxW ds t ss k = none)
    ∧ (∀ thr dur poll maxW : ℚ, ∀ (ds : List ℚ) (j : Nat),
        arrivalIdx thr dur poll maxW ds = some j →
        1 ≤ j ∧ (j : ℚ) * poll < maxW)
    ∧ (∀ thr dur poll maxW d : ℚ, ∀ (ds : List ℚ) (t ss : ℚ) (k : Nat),
        t < maxW → thr < d →
        arrivalAux thr dur poll maxW (d :: ds) t ss k =
          arrivalAux thr dur poll maxW ds (t + poll) t (k + 1)) := by
  refine ⟨by norm_num [arrivalIdx, arrivalAux],
          by norm_num [arrivalIdx, arrivalAux], ?_, ?_, ?_⟩
  · exact arrivalAux_all_unstable
  · intro thr dur poll maxW ds j h
    obtain ⟨hk, hb⟩ := arrivalAux_some_bound thr dur poll maxW ds poll 0 1 j h
    refine ⟨hk, ?_⟩
    have hcast : ((j - 1 : ℕ) : ℚ) = (j : ℚ) - 1 := by
      rw [Nat.cast_sub hk]
      simp
    rw [hcast] at hb
    nlinarith [hb]
  · intro thr dur poll maxW d ds t ss k ht hd
    conv_lhs => rw [arrivalAux]
    rw [if_neg (not_le.mpr ht), if_pos hd]

/-- Witness for the amended C7: a run with every diff above threshold
never declares arrival. -/
theorem arrival_detection_witness :
    (∀ d ∈ ([10, 10, 10] : List ℚ), (2 : ℚ) < d) ∧
    arrivalAux 2 5 (3 / 2) 120 [10, 10, 10] (3 / 2) 0 1 = none :=
  ⟨by norm_num,
   arrival_detection_amended.2.2.1 2 5 (3 / 2) 120 [10, 10, 10] (3 / 2) 0 1
     (by norm_num)⟩

/-! ### Claim C8: monster-list selection fail-safe -/

/-- Claim C8: the monster-list selection clicks at most one row; a clicked
row always passed the blacklist and matches the target name (exact or
token-wise); and if no row matches the target nothing is clicked. -/
theorem monster_select_failsafe :
    (∀ name rows i, monsterScan name rows = some i →
      entryClickable (lowerL name.toList) (splitWs (lowerL name.toList))
        (rows i) = true)
    ∧ (∀ bossLower words row,
        entryClickable bossLower words row = true →
        (skipEntries.any fun sk => containsSub sk (stripL (lowerL row)))
            = false ∧
        entryMatches bossLower words (stripL (lowerL row)) = true)
    ∧ (∀ pos name rows, (monsterClicks pos name rows).length ≤ 1)
    ∧ (∀ pos name rows i, monsterScan name rows = some i →
        monsterClicks pos name rows =
          [(pos.monsterListFirst.1,
            pos.monsterListFirst.2 + (i : ℤ) * 38 + 19)])
    ∧ (∀ name rows,
        (∀ i, i < 6 →
          entryMatches (lowerL name.toList) (splitWs (lowerL name.toList))
            (stripL (lowerL (rows i))) = false) →
        monsterScan name rows = none) := by
  refine ⟨?_, ?_, ?_, ?_, ?_⟩
  · intro name rows i h
    have h2 : List.find?
        (fun j => entryClickable (lowerL name.toList)
          (splitWs (lowerL name.toList)) (rows j))
        (List.range 6) = some i := h
    simpa using List.find?_some h2
  · intro bossLower words row h
    simp only [entryClickable, Bool.and_eq_true, Bool.not_eq_eq_eq_not,
      Bool.not_true] at h
    exact ⟨h.1.2, h.2⟩
  · intro pos name rows
    unfold monsterClicks
    rcases monsterScan name rows with _ | i <;> simp
  · intro pos name rows i h
    simp [monsterClicks, h]
  · intro name rows h
    refine List.find?_eq_none.mpr ?_
    intro i hi
    have hi6 : i < 6 := List.mem_range.mp hi
    have hm := h i hi6
    simp only [String.toList] at hm
    simp [entryClickable, hm]

/-- A concrete monster dropdown: a blacklisted first row, the target on
the second row. -/
def cexRows : Nat → List Char := fun i =>
  if i = 0 then "All Monsters".toList
  else if i = 1 then "Eddga Lv 99".toList
  else []

/-- Witness for C8: the blacklisted row is skipped and the matching row is
the one selected. -/
theorem monster_select_failsafe_witness :
    monsterScan "Eddga" cexRows = some 1 ∧
    entryClickable (lowerL "Eddga".toList) (splitWs (lowerL "Eddga".toList))
      (cexRows 1) = true :=
  ⟨by decide, monster_select_failsafe.1 "Eddga" cexRows 1 (by decide)⟩

/-! ### Claim C9: FIGHTING exit behavior -/

/-- Claim C9: a death detected in `FIGHTING` drives the machine through
`DEAD`, `RESURRECT`, `RE_NAVIGATE` and into `OPEN_PANEL` with the death
counter incremented exactly once and the target retained; a fighting
timeout with no death goes straight to `IDLE` with the target cleared and
the death counter unchanged. -/
theorem fighting_exit_spec :
    (∀ pos env1 env2 env3 env4 s b,
      s.state = BossState.FIGHTING → s.targetBoss = some b →
      env1.loading = false → env1.deathDetected = true →
      env2.loading = false → env3.loading = false → env4.loading = false →
      (tick pos env1 s).1.state = BossState.DEAD ∧
      (tick pos env1 s).1.deaths = s.deaths + 1 ∧
      (tick pos env2 (tick pos env1 s).1).1.state = BossState.RESURRECT ∧
      (tick pos env2 (tick pos env1 s).1).1.deaths = s.deaths + 1 ∧
      (tick pos env3 (tick pos env2 (tick pos env1 s).1).1).1.state =
        BossState.RE_NAVIGATE ∧
      (tick pos env3 (tick pos env2 (tick pos env1 s).1).1).1.deaths =
        s.deaths + 1 ∧
      (tick pos env4
        (tick pos env3 (tick pos env2 (tick pos env1 s).1).1).1).1.state =
        BossState.OPEN_PANEL ∧
      (tick pos env4
        (tick pos env3 (tick pos env2 (tick pos env1 s).1).1).1).1.deaths =
        s.deaths + 1 ∧
      (tick pos env4
        (tick pos env3 (tick pos env2 (tick pos env1 s).1).1).1).1.targetBoss
        = some b)
    ∧ (∀ pos env s, s.state = BossState.FIGHTING → env.loading = false →
        env.deathDetected = false → 90 < env.fightElapsed →
        (tick pos env s).1.state = BossState.IDLE ∧
        (tick pos env s).1.targetBoss = none ∧
        (tick pos env s).1.deaths = s.deaths) := by
  constructor
  · intro pos env1 env2 env3 env4 s b hs htgt h1l h1d h2l h3l h4l
    simp [tick, dispatch, handleFighting, handleDead, handleResurrect,
          handleReNavigate, hs, htgt, h1l, h1d, h2l, h3l, h4l]
  · intro pos env s hs hl hd ht
    simp [tick, dispatch, handleFighting, hs, hl, hd, ht, not_lt_of_gt ht]

/-- A concrete `FIGHTING` state with a live target. -/
def fightState : BotState :=
  {baseState with state := BossState.FIGHTING, targetBoss := some "Eddga"}

/-- A tick environment in which the death signal fires. -/
def deathEnv : TickEnv := {quietEnv with deathDetected := true}

/-- Witness for C9: the death path from the concrete fighting state. -/
theorem fighting_exit_witness :
    fightState.state = BossState.FIGHTING ∧
    deathEnv.deathDetected = true ∧
    (tick cpos deathEnv fightState).1.state = BossState.DEAD ∧
    (tick cpos deathEnv fightState).1.deaths = fightState.deaths + 1 :=
  ⟨rfl, rfl,
   (fighting_exit_spec.1 cpos deathEnv quietEnv quietEnv quietEnv fightState
     "Eddga" rfl rfl rfl rfl rfl rfl rfl).1,
   (fighting_exit_spec.1 cpos deathEnv quietEnv quietEnv quietEnv fightState
     "Eddga" rfl rfl rfl rfl rfl rfl rfl).2.1⟩

/-! ### Claim C4: timer-map monotonicity -/

theorem scanBosses_timers (row : List Char) :
    ∀ (targets : List String) (m : Timers) (b : String),
      ((scanBosses targets row m).1 b = m b) ∨
      (∃ tm, findTimer row = some tm ∧
        (scanBosses targets row m).1 b = some tm) := by
  intro targets
  induction targets with
  | nil => intro m b; left; rfl
  | cons boss rest ih =>
    intro m b
    rw [scanBosses]
    split_ifs with hcont hmark
    · left; rfl
    · rcases hft : findTimer row with _ | tm
      · rcases ih m b with h | ⟨tm2, hft2, h⟩
        · exact Or.inl h
        · rw [hft] at hft2
          exact Option.noConfusion hft2
      · rcases ih (timerSet m boss tm) b with h | ⟨tm2, hft2, h⟩
        · unfold timerSet at h
          by_cases hb : b = boss
          · rw [if_pos hb] at h
            exact Or.inr ⟨tm, rfl, h⟩
          · rw [if_neg hb] at h
            exact Or.inl h
        · rw [hft] at hft2
          exact Or.inr ⟨tm2, hft2, h⟩
    · exact ih m b

theorem scanRowsList_timers (targets : List String) (rowOf : Nat → List Char) :
    ∀ (idxs : List Nat) (m : Timers) (b : String),
      ((scanRowsList targets rowOf idxs m).1 b = m b) ∨
      (∃ i ∈ idxs, ∃ tm, findTimer (rowOf i) = some tm ∧
        (scanRowsList targets rowOf idxs m).1 b = some tm) := by
  intro idxs
  induction idxs with
  | nil => intro m b; left; rfl
  | cons i rest ih =>
    intro m b
    have hm1 := scanBosses_timers (rowOf i) targets m b
    rcases hsb : scanBosses targets (rowOf i) m with ⟨m1, f⟩
    rw [hsb] at hm1
    have hm1a : m1 b = m b ∨
        ∃ tm, findTimer (rowOf i) = some tm ∧ m1 b = some tm := hm1
    rw [scanRowsList, hsb]
    cases f with
    | some bf =>
      rcases hm1a with h | ⟨tm, hft, h⟩
      · exact Or.inl h
      · exact Or.inr ⟨i, List.mem_cons_self i rest, tm, hft, h⟩
    | none =>
      rcases ih m1 b with h | ⟨i2, hi2, tm, hft, h⟩
      · rcases hm1a with h2 | ⟨tm, hft, h2⟩
        · exact Or.inl (h.trans h2)
        · exact Or.inr
            ⟨i, List.mem_cons_self i rest, tm, hft, h.trans h2⟩
      · exact Or.inr ⟨i2, List.mem_cons_of_mem i hi2, tm, hft, h⟩

theorem mem_range4_lt : ∀ i : Nat, i ∈ ([0, 1, 2, 3] : List Nat) → i < 4 := by
  intro i hi
  simp only [List.mem_cons, List.mem_singleton] at hi
  rcases hi with rfl | rfl | rfl | rfl | h
  · omega
  · omega
  · omega
  · omega
  · simp at h

theorem checkStatusPage2_timers (pos : Positions) (env : TickEnv)
    (s : BotState) (targets : List String) (m0 : Timers) (b : String)
    (v0 : List Char) (hv0 : m0 b = some v0) :
    ∃ v1, (checkStatusPage2 pos env s targets m0).1.bossTimers b = some v1 ∧
      (v1 = v0 ∨ ∃ r, r < 4 ∧ findTimer (env.rowText 1 r) = some v1) := by
  unfold checkStatusPage2
  have h1 : (scanPage targets (env.rowText 1) m0).1 b = m0 b ∨
      ∃ i ∈ ([0, 1, 2, 3] : List Nat), ∃ tm,
        findTimer (env.rowText 1 i) = some tm ∧
        (scanPage targets (env.rowText 1) m0).1 b = some tm :=
    scanRowsList_timers targets (env.rowText 1) [0, 1, 2, 3] m0 b
  rcases hp1 : scanPage targets (env.rowText 1) m0 with ⟨m1, f1⟩
  rw [hp1] at h1
  have h1a : m1 b = m0 b ∨
      ∃ i ∈ ([0, 1, 2, 3] : List Nat), ∃ tm,
        findTimer (env.rowText 1 i) = some tm ∧ m1 b = some tm := h1
  have hm1 : ∃ v1, m1 b = some v1 ∧
      (v1 = v0 ∨ ∃ r, r < 4 ∧ findTimer (env.rowText 1 r) = some v1) := by
    rcases h1a with h | ⟨i, hi, tm, hft, h⟩
    · exact ⟨v0, by rw [h, hv0], Or.inl rfl⟩
    · exact ⟨tm, h, Or.inr ⟨i, mem_range4_lt i hi, hft⟩⟩
  cases f1 with
  | some br => exact hm1
  | none =>
    split_ifs with hsw
    · exact hm1
    · exact hm1

/-- Claim C4: a scan pass never removes or blanks a previously recorded
timer entry; the entry survives, and when its value changes the new value
is a timer string successfully parsed from one of the scanned row texts. -/
theorem timer_map_monotonicity :
    ∀ pos env s (b : String) v, s.bossTimers b = some v →
      ∃ v', (handleCheckStatus pos env s).1.bossTimers b = some v' ∧
        (v' = v ∨ ∃ p r, p < 2 ∧ r < 4 ∧
          findTimer (env.rowText p r) = some v') := by
  intro pos env s b v hv
  unfold handleCheckStatus checkStatusCore
  set targets := (if s.checkingMvpTab then s.selectedMvps else s.selectedMinis)
    with htargets
  have h0 : (scanPage targets (env.rowText 0) s.bossTimers).1 b
        = s.bossTimers b ∨
      ∃ i ∈ ([0, 1, 2, 3] : List Nat), ∃ tm,
        findTimer (env.rowText 0 i) = some tm ∧
        (scanPage targets (env.rowText 0) s.bossTimers).1 b = some tm :=
    scanRowsList_timers targets (env.rowText 0) [0, 1, 2, 3] s.bossTimers b
  rcases hp0 : scanPage targets (env.rowText 0) s.bossTimers with ⟨m0, f0⟩
  rw [hp0] at h0
  have h0a : m0 b = s.bossTimers b ∨
      ∃ i ∈ ([0, 1, 2, 3] : List Nat), ∃ tm,
        findTimer (env.rowText 0 i) = some tm ∧ m0 b = some tm := h0
  have hm0 : ∃ v0, m0 b = some v0 ∧
      (v0 = v ∨ ∃ p r, p < 2 ∧ r < 4 ∧
        findTimer (env.rowText p r) = some v0) := by
    rcases h0a with h | ⟨i, hi, tm, hft, h⟩
    · exact ⟨v, by rw [h, hv], Or.inl rfl⟩
    · exact ⟨tm, h, Or.inr ⟨0, i, by omega, mem_range4_lt i hi, hft⟩⟩
  cases f0 with
  | some br => exact hm0
  | none =>
    obtain ⟨v0, hv0, hv0src⟩ := hm0
    obtain ⟨v1, hv1, hv1src⟩ :=
      checkStatusPage2_timers pos env s targets m0 b v0 hv0
    refine ⟨v1, hv1, ?_⟩
    rcases hv1src with rfl | ⟨r, hr, hft⟩
    · exact hv0src
    · exact Or.inr ⟨1, r, by omega, hr, hft⟩

/-- A concrete `CHECK_STATUS` state with a recorded timer for Eddga. -/
def timerState : BotState :=
  {baseState with state := BossState.CHECK_STATUS,
                  bossTimers := timerSet emptyTimers "Eddga"
                    "01:02:03".toList}

/-- Witness for C4: an all-empty scan leaves the recorded Eddga timer in
place. -/
theorem timer_map_monotonicity_witness :
    timerState.bossTimers "Eddga" = some "01:02:03".toList ∧
    ∃ v', (handleCheckStatus cpos quietEnv timerState).1.bossTimers "Eddga"
        = some v' ∧
      (v' = "01:02:03".toList ∨ ∃ p r, p < 2 ∧ r < 4 ∧
        findTimer (quietEnv.rowText p r) = some v') :=
  ⟨by decide,
   timer_map_monotonicity cpos quietEnv timerState "Eddga" _ (by decide)⟩

/-! ### Claim C2: the target/IDLE discipline (corrected) -/

theorem switchCh1_target (pos : Positions) (env : TickEnv) (s : BotState) :
    (handleSwitchCh1 pos env s).1.targetBoss = s.targetBoss := by
  unfold handleSwitchCh1
  split_ifs <;> rfl

theorem openPanel_target (pos : Positions) (env : TickEnv) (s : BotState) :
    (handleOpenPanel pos env s).1.targetBoss = s.targetBoss := by
  unfold handleOpenPanel
  split_ifs <;> rfl

theorem ensureCh1_target (pos : Positions) (env : TickEnv) (s : BotState) :
    (ensureCh1 pos env s).1.targetBoss = s.targetBoss := by
  unfold ensureCh1
  split_ifs <;> rfl

theorem checkStatusPage2_target (pos : Positions) (env : TickEnv)
    (s : BotState) (targets : List String) (m0 : Timers) :
    (checkStatusPage2 pos env s targets m0).1.targetBoss = s.targetBoss ∨
    ∃ b, (checkStatusPage2 pos env s targets m0).1.targetBoss = some b := by
  unfold checkStatusPage2
  rcases scanPage targets (env.rowText 1) m0 with ⟨m1, f1⟩
  cases f1 with
  | some br => exact Or.inr ⟨br.1, rfl⟩
  | none => split_ifs <;> exact Or.inl rfl

theorem checkStatusCore_target (pos : Positions) (env : TickEnv)
    (s : BotState) (targets : List String) :
    (checkStatusCore pos env s targets).1.targetBoss = s.targetBoss ∨
    ∃ b, (checkStatusCore pos env s targets).1.targetBoss = some b := by
  unfold checkStatusCore
  rcases scanPage targets (env.rowText 0) s.bossTimers with ⟨m0, f0⟩
  cases f0 with
  | some br => exact Or.inr ⟨br.1, rfl⟩
  | none => exact checkStatusPage2_target pos env s targets m0

theorem checkStatusPage2_idle_target (pos : Positions) (env : TickEnv)
    (s : BotState) (targets : List String) (m0 : Timers) :
    (checkStatusPage2 pos env s targets m0).1.state = BossState.IDLE →
    (checkStatusPage2 pos env s targets m0).1.targetBoss = s.targetBoss := by
  unfold checkStatusPage2
  rcases scanPage targets (env.rowText 1) m0 with ⟨m1, f1⟩
  cases f1 with
  | some br =>
    intro h
    exact absurd h (by simp [foundUpdate])
  | none => split_ifs <;> intro h <;> rfl

theorem checkStatusCore_idle_target (pos : Positions) (env : TickEnv)
    (s : BotState) (targets : List String) :
    (checkStatusCore pos env s targets).1.state = BossState.IDLE →
    (checkStatusCore pos env s targets).1.targetBoss = s.targetBoss := by
  unfold checkStatusCore
  rcases scanPage targets (env.rowText 0) s.bossTimers with ⟨m0, f0⟩
  cases f0 with
  | some br =>
    intro h
    exact absurd h (by simp [foundUpdate])
  | none => exact checkStatusPage2_idle_target pos env s targets m0

/-- Counterexample to C2 as stated: a panel-open failure in `OPEN_PANEL`
(here reached while re-navigating with a live target) returns the machine
to `IDLE` without clearing the target boss. -/
def panelFailEnv : TickEnv := {quietEnv with panelOpens := fun _ => false}

/-- A concrete `OPEN_PANEL` state with a live target. -/
def renavPanelState : BotState :=
  {baseState with state := BossState.OPEN_PANEL, targetBoss := some "Eddga"}

theorem target_cleared_on_idle_cex :
    (tick cpos panelFailEnv renavPanelState).1.state = BossState.IDLE ∧
    (tick cpos panelFailEnv renavPanelState).1.targetBoss ≠ none := by
  constructor <;> decide

/-- Claim C2 as amended: after a find the target stays non-null through
every tick that does not land in `IDLE`; the stop and fighting-timeout
paths null the target when entering `IDLE`, and the re-navigate path
enters `IDLE` only with an already-null target; but the panel-open-failure
and no-spawn paths return to `IDLE` with the target field untouched
(possibly non-null). -/
theorem target_idle_discipline :
    (∀ pos env s, s.targetBoss.isSome = true →
      (tick pos env s).1.state ≠ BossState.IDLE →
      (tick pos env s).1.targetBoss.isSome = true)
    ∧ (∀ s, (stopBot s).state = BossState.IDLE ∧
        (stopBot s).targetBoss = none)
    ∧ (∀ pos env s, env.loading = false → s.state = BossState.FIGHTING →
        env.deathDetected = false → 90 < env.fightElapsed →
        (tick pos env s).1.state = BossState.IDLE ∧
        (tick pos env s).1.targetBoss = none)
    ∧ (∀ pos env s, env.loading = false → s.state = BossState.RE_NAVIGATE →
        s.targetBoss = none →
        (tick pos env s).1.state = BossState.IDLE ∧
        (tick pos env s).1.targetBoss = none)
    ∧ (∀ pos env s, env.loading = false → s.state = BossState.OPEN_PANEL →
        (tick pos env s).1.targetBoss = s.targetBoss)
    ∧ (∀ pos env s, env.loading = false → s.state = BossState.CHECK_STATUS →
        (tick pos env s).1.state = BossState.IDLE →
        (tick pos env s).1.targetBoss = s.targetBoss) := by
  refine ⟨?_, ?_, ?_, ?_, ?_, ?_⟩
  · intro pos env s hsome hstate
    unfold tick at hstate ⊢
    cases hl : env.loading with
    | true =>
      simp only [eq_self_iff_true, if_true]
      simpa using hsome
    | false =>
      rw [hl] at hstate
      simp only [Bool.false_eq_true, if_false] at hstate ⊢
      unfold dispatch at hstate ⊢
      cases hst : s.state with
      | IDLE => exact hsome
      | SWITCH_CH1 =>
        show ((handleSwitchCh1 pos env s).1.targetBoss).isSome = true
        rw [switchCh1_target]
        exact hsome
      | OPEN_PANEL =>
        show ((handleOpenPanel pos env s).1.targetBoss).isSome = true
        rw [openPanel_target]
        exact hsome
      | CHECK_STATUS =>
        show ((checkStatusCore pos env s
          (if s.checkingMvpTab then s.selectedMvps
           else s.selectedMinis)).1.targetBoss).isSome = true
        rcases checkStatusCore_target pos env s
          (if s.checkingMvpTab then s.selectedMvps else s.selectedMinis)
          with h | ⟨b, h⟩
        · rw [h]; exact hsome
        · rw [h]; rfl
      | CLICK_GO =>
        show ((ensureCh1 pos env s).1.targetBoss).isSome = true
        rw [ensureCh1_target]
        exact hsome
      | START_ATTACK => exact hsome
      | FIGHTING =>
        rw [hst] at hstate
        replace hstate : (handleFighting env s).1.state ≠ BossState.IDLE :=
          hstate
        show ((handleFighting env s).1.targetBoss).isSome = true
        unfold handleFighting at hstate ⊢
        split_ifs at hstate ⊢ with h1 h2
        · exact hsome
        · exact absurd rfl hstate
        · exact hsome
      | DEAD => exact hsome
      | RESURRECT => exact hsome
      | RE_NAVIGATE =>
        rw [hst] at hstate
        replace hstate : (handleReNavigate s).1.state ≠ BossState.IDLE :=
          hstate
        show ((handleReNavigate s).1.targetBoss).isSome = true
        unfold handleReNavigate at hstate ⊢
        split_ifs at hstate ⊢ with h1
        · exact absurd rfl hstate
        · exact hsome
  · intro s
    exact ⟨rfl, rfl⟩
  · intro pos env s hl hs hd ht
    simp [tick, dispatch, handleFighting, hl, hs, hd, ht, not_lt_of_gt ht]
  · intro pos env s hl hs htgt
    simp [tick, dispatch, handleReNavigate, hl, hs, htgt]
  · intro pos env s hl hs
    simp only [tick, hl, Bool.false_eq_true, if_false, dispatch, hs]
    exact openPanel_target pos env s
  · intro pos env s hl hs hstate
    simp only [tick, hl, Bool.false_eq_true, if_false, dispatch, hs]
      at hstate ⊢
    unfold handleCheckStatus at hstate ⊢
    exact checkStatusCore_idle_target pos env s _ hstate

/-- A tick environment past the fighting timeout with no death signal. -/
def timeoutEnv : TickEnv := {quietEnv with fightElapsed := 91}

/-- Witness for the amended C2: the fighting-timeout path lands in `IDLE`
with the target nulled. -/
theorem target_idle_discipline_witness :
    timeoutEnv.loading = false ∧
    fightState.state = BossState.FIGHTING ∧
    timeoutEnv.deathDetected = false ∧
    (90 : ℚ) < timeoutEnv.fightElapsed ∧
    ((tick cpos timeoutEnv fightState).1.state = BossState.IDLE ∧
     (tick cpos timeoutEnv fightState).1.targetBoss = none) :=
  ⟨rfl, rfl, rfl, by norm_num [timeoutEnv, quietEnv],
   target_idle_discipline.2.2.1 cpos timeoutEnv fightState rfl rfl rfl
     (by norm_num [timeoutEnv, quietEnv])⟩

end BossBot
